import Mathlib

/-!
Shallow embedding of `src/python-bridge/csri_client.py` (CSNePS robotics
inference python bridge, mocked gRPC client v0.1.0).

Modelling conventions:

* Python exceptions that the source catches with `try/except Exception` are
  modelled by an oracle `Env`: `connectErr` is the exception message raised
  inside the `try` body of `connect` (if any), `dispatchErr` the one raised
  inside the `try` body of the operation itself (the simulated gRPC call).
  `Env.now` stands for the wall clock (`time.time`, `datetime.now`), scaled
  to an integer.
* Each client method becomes a total Lean function returning
  `(response, new client state, event trace)`.  Totality embeds the
  catch-all `except Exception` of the source: no exception escapes those
  methods.  The free function `send_observation` alone returns
  `Except String _`, embedding its `raise ValueError(...)`.
* The event trace records, in order, the connect attempts and dispatch
  (simulated gRPC call) attempts the call performs, so that "exactly one
  implicit connect" and "no network call" are provable statements.
* Python `float` fields carry no arithmetic in the client; they are embedded
  as `Rat`.  `datetime` values are embedded as `Nat` clock readings.
-/

namespace CSRI

/-- State of `CSNeRSClient` (`__init__`): endpoint and the `_connected` flag.
`_channel` and the two stubs stay `None` throughout v0.1.0 and carry no
information, so they are not part of the state. -/
structure ClientState where
  host : String
  port : Int
  connected : Bool
deriving Repr, DecidableEq

/-- Trace events: a connect attempt, or a dispatch (simulated gRPC call). -/
inductive Event where
  | connect
  | dispatch
deriving Repr, DecidableEq

/-- Exception/clock oracle for one client call (see the module docstring). -/
structure Env where
  connectErr : Option String
  dispatchErr : Option String
  now : Nat
deriving Repr, DecidableEq

/-- `LoopClosure` dataclass. -/
structure LoopClosure where
  landmark_id : String
  score : Rat
  method : String
  pose_estimate : List Rat
  timestamp : Option Nat
deriving Repr, DecidableEq

/-- `AppearanceMatch` dataclass. -/
structure AppearanceMatch where
  landmark_id : String
  consistency : String
  score : Rat
  timestamp : Option Nat
deriving Repr, DecidableEq

/-- `GNCEvent` dataclass.  The `parameters: Dict[str, float]` field is
embedded as an association list. -/
structure GNCEvent where
  event_type : String
  mode : String
  severity : Rat
  parameters : List (String × Rat)
  timestamp : Option Nat
deriving Repr, DecidableEq

/-- `MedicalFinding` dataclass. -/
structure MedicalFinding where
  patient_id : String
  finding_type : String
  confidence : Rat
  location : String
  size_mm : Rat
  modality : String
  timestamp : Option Nat
deriving Repr, DecidableEq

/-- `ObservationResponse` dataclass, after `__post_init__` has run: by then
`triggered_rules` is always a list, never `None`. -/
structure ObservationResponse where
  success : Bool
  message : String
  observation_id : Option String
  triggered_rules : List String
deriving Repr, DecidableEq

/-- `ObservationResponse(...)` constructor including `__post_init__`: the
Python field `triggered_rules` defaults to `None` and is normalised to the
empty list. -/
def mkObservationResponse (success : Bool) (message : String)
    (observation_id : Option String) (triggered_rules : Option (List String)) :
    ObservationResponse :=
  { success := success
    message := message
    observation_id := observation_id
    triggered_rules := triggered_rules.getD [] }

/-- `BeliefInfo` dataclass.  `content` is a JSON-serialised string in the
source and stays a string here. -/
structure BeliefInfo where
  belief_id : String
  belief_type : String
  content : String
  confidence : Rat
  created_at : Nat
deriving Repr, DecidableEq

/-- `BeliefQuery` dataclass (`limit` is a Python `int`, default 10). -/
structure BeliefQuery where
  concept : String
  limit : Int
  include_justification : Bool
deriving Repr, DecidableEq

/-- `BeliefResponse` dataclass. -/
structure BeliefResponse where
  beliefs : List BeliefInfo
  success : Bool
  message : String
deriving Repr, DecidableEq

/-- `JustificationQuery` dataclass (`max_depth` is a Python `int`, default 5). -/
structure JustificationQuery where
  belief_id : String
  max_depth : Int
deriving Repr, DecidableEq

/-- `JustificationResponse` dataclass; `justification_tree` is a
JSON-serialised string. -/
structure JustificationResponse where
  justification_tree : String
  success : Bool
  message : String
deriving Repr, DecidableEq

/-- `CSNeRSClient.connect`.  The `try` body (log, simulated delay, set
`_connected = True`, `return True`) succeeds unless the oracle injects an
exception; then the `except` branch sets `_connected = False` and returns
`False`.  Note the source never consults the current `_connected` flag. -/
def connect (s : ClientState) (err : Option String) : Bool × ClientState :=
  match err with
  | some _ => (false, { s with connected := false })
  | none => (true, { s with connected := true })

/-- `CSNeRSClient.disconnect`: always succeeds, clears `_connected`. -/
def disconnect (s : ClientState) : ClientState :=
  { s with connected := false }

/-- `CSNeRSClient.is_connected` property: pure read of `_connected`. -/
def is_connected (s : ClientState) : Bool :=
  s.connected

/-- The `try` block of `send_loop_closure`: the simulated gRPC call either
raises (oracle) and is caught by the `except` branch, or returns the canned
success response with a fresh observation id. -/
def sendLoopClosureTry (s : ClientState) (env : Env) :
    ObservationResponse × ClientState × List Event :=
  match env.dispatchErr with
  | some e =>
      (mkObservationResponse false ("Error sending observation: " ++ e) none none,
       s, [Event.dispatch])
  | none =>
      (mkObservationResponse true "Loop closure processed successfully"
         (some ("obs_" ++ toString env.now))
         (some ["slam-rule-1", "slam-rule-2"]),
       s, [Event.dispatch])

/-- `CSNeRSClient.send_loop_closure`: auto-connect guard, then the `try`
block.  The observation argument is only logged by the mock. -/
def send_loop_closure (s : ClientState) (env : Env) (_obs : LoopClosure) :
    ObservationResponse × ClientState × List Event :=
  if s.connected then sendLoopClosureTry s env
  else
    match connect s env.connectErr with
    | (true, s1) =>
        let r := sendLoopClosureTry s1 env
        (r.1, r.2.1, Event.connect :: r.2.2)
    | (false, s1) =>
        (mkObservationResponse false "Not connected to CSNePS server" none none,
         s1, [Event.connect])

/-- The `try` block of `send_appearance_match`. -/
def sendAppearanceMatchTry (s : ClientState) (env : Env) :
    ObservationResponse × ClientState × List Event :=
  match env.dispatchErr with
  | some e =>
      (mkObservationResponse false ("Error sending observation: " ++ e) none none,
       s, [Event.dispatch])
  | none =>
      (mkObservationResponse true "Appearance match processed successfully"
         (some ("obs_" ++ toString env.now))
         (some ["slam-rule-2", "slam-rule-3"]),
       s, [Event.dispatch])

/-- `CSNeRSClient.send_appearance_match`. -/
def send_appearance_match (s : ClientState) (env : Env) (_obs : AppearanceMatch) :
    ObservationResponse × ClientState × List Event :=
  if s.connected then sendAppearanceMatchTry s env
  else
    match connect s env.connectErr with
    | (true, s1) =>
        let r := sendAppearanceMatchTry s1 env
        (r.1, r.2.1, Event.connect :: r.2.2)
    | (false, s1) =>
        (mkObservationResponse false "Not connected to CSNePS server" none none,
         s1, [Event.connect])

/-- The `try` block of `send_gnc_event`. -/
def sendGncEventTry (s : ClientState) (env : Env) :
    ObservationResponse × ClientState × List Event :=
  match env.dispatchErr with
  | some e =>
      (mkObservationResponse false ("Error sending observation: " ++ e) none none,
       s, [Event.dispatch])
  | none =>
      (mkObservationResponse true "GNC event processed successfully"
         (some ("obs_" ++ toString env.now))
         (some ["gnc-rule-1", "gnc-rule-2"]),
       s, [Event.dispatch])

/-- `CSNeRSClient.send_gnc_event`. -/
def send_gnc_event (s : ClientState) (env : Env) (_obs : GNCEvent) :
    ObservationResponse × ClientState × List Event :=
  if s.connected then sendGncEventTry s env
  else
    match connect s env.connectErr with
    | (true, s1) =>
        let r := sendGncEventTry s1 env
        (r.1, r.2.1, Event.connect :: r.2.2)
    | (false, s1) =>
        (mkObservationResponse false "Not connected to CSNePS server" none none,
         s1, [Event.connect])

/-- The `try` block of `send_medical_finding`. -/
def sendMedicalFindingTry (s : ClientState) (env : Env) :
    ObservationResponse × ClientState × List Event :=
  match env.dispatchErr with
  | some e =>
      (mkObservationResponse false ("Error sending observation: " ++ e) none none,
       s, [Event.dispatch])
  | none =>
      (mkObservationResponse true "Medical finding processed successfully"
         (some ("obs_" ++ toString env.now))
         (some ["medical-rule-1", "medical-rule-3"]),
       s, [Event.dispatch])

/-- `CSNeRSClient.send_medical_finding`. -/
def send_medical_finding (s : ClientState) (env : Env) (_obs : MedicalFinding) :
    ObservationResponse × ClientState × List Event :=
  if s.connected then sendMedicalFindingTry s env
  else
    match connect s env.connectErr with
    | (true, s1) =>
        let r := sendMedicalFindingTry s1 env
        (r.1, r.2.1, Event.connect :: r.2.2)
    | (false, s1) =>
        (mkObservationResponse false "Not connected to CSNePS server" none none,
         s1, [Event.connect])

/-- Python list slice `xs[:n]` for an `int` bound: a nonnegative `n` takes
the first `n` elements; a negative `n` keeps all but the last `|n|`
(clamped at zero). -/
def pyTake {α : Type} (n : Int) (xs : List α) : List α :=
  if 0 ≤ n then xs.take n.toNat else xs.take (xs.length - (-n).toNat)

/-- The `mock_beliefs` list built inside `query_beliefs`, per concept.  The
`content` strings are the `json.dumps` renderings from the source. -/
def mockBeliefs (concept : String) (now : Nat) : List BeliefInfo :=
  if concept = "HighConfidenceLandmark" then
    [ { belief_id := "landmark-1"
        belief_type := "HighConfidenceLandmark"
        content := "\x7b\"landmark_id\": \"L001\", \"confidence\": 0.85\x7d"
        confidence := 0.85
        created_at := now },
      { belief_id := "landmark-2"
        belief_type := "HighConfidenceLandmark"
        content := "\x7b\"landmark_id\": \"L002\", \"confidence\": 0.91\x7d"
        confidence := 0.91
        created_at := now } ]
  else if concept = "Hypothesis" then
    [ { belief_id := "hypothesis-1"
        belief_type := "Hypothesis"
        content := "\x7b\"event_type\": \"thruster_anomaly\", \"hypothesis\": \"performance_degradation\"\x7d"
        confidence := 0.72
        created_at := now } ]
  else if concept = "Recommendation" then
    [ { belief_id := "recommendation-1"
        belief_type := "Recommendation"
        content := "\x7b\"finding_type\": \"lesion\", \"action\": \"biopsy\", \"priority\": \"urgent\"\x7d"
        confidence := 0.91
        created_at := now } ]
  else []

/-- The `try` block of `query_beliefs`: on success, truncate the mock list
to `query.limit` entries (Python slice semantics). -/
def queryBeliefsTry (s : ClientState) (env : Env) (q : BeliefQuery) :
    BeliefResponse × ClientState × List Event :=
  match env.dispatchErr with
  | some e =>
      ({ beliefs := []
         success := false
         message := "Error querying beliefs: " ++ e }, s, [Event.dispatch])
  | none =>
      ({ beliefs := pyTake q.limit (mockBeliefs q.concept env.now)
         success := true
         message := "Query executed successfully" }, s, [Event.dispatch])

/-- `CSNeRSClient.query_beliefs`. -/
def query_beliefs (s : ClientState) (env : Env) (q : BeliefQuery) :
    BeliefResponse × ClientState × List Event :=
  if s.connected then queryBeliefsTry s env q
  else
    match connect s env.connectErr with
    | (true, s1) =>
        let r := queryBeliefsTry s1 env q
        (r.1, r.2.1, Event.connect :: r.2.2)
    | (false, s1) =>
        ({ beliefs := []
           success := false
           message := "Not connected to CSNePS server" }, s1, [Event.connect])

/-- The `justification` dict built inside `get_justification`.  Every field
except `belief_id` is hard-coded by the mock; in particular `depth` is the
constant 2 regardless of `max_depth`. -/
structure Justification where
  belief_id : String
  rule_path : List String
  premises : List String
  confidence : Rat
  depth : Nat
deriving Repr, DecidableEq

/-- The payload `get_justification` builds for a query. -/
def mkJustificationPayload (q : JustificationQuery) : Justification :=
  { belief_id := q.belief_id
    rule_path := ["observation", "rule-1", "conclusion"]
    premises := ["loop-closure-score > 0.8", "consistent-appearance"]
    confidence := 0.85
    depth := 2 }

/-- Lowercase hexadecimal digit, as `json.dumps` uses in `\uXXXX` escapes. -/
def hexDigit (n : Nat) : Char :=
  if n < 10 then Char.ofNat (48 + n) else Char.ofNat (87 + n)

/-- A `\uXXXX` escape sequence for one UTF-16 code unit. -/
def uEscape (n : Nat) : List Char :=
  ['\\', 'u', hexDigit (n / 4096 % 16), hexDigit (n / 256 % 16),
   hexDigit (n / 16 % 16), hexDigit (n % 16)]

/-- `json.dumps` escaping (default `ensure_ascii=True`) of one character:
the double quote and the backslash get a backslash escape, printable ASCII
(0x20 to 0x7e) passes through verbatim, the short control escapes are used
for backspace, tab, newline, form feed and carriage return, every other
character becomes `\uXXXX` (a surrogate pair beyond the basic plane). -/
def pyJsonEscapeChar (c : Char) : List Char :=
  if c = '"' then ['\\', '"']
  else if c = '\\' then ['\\', '\\']
  else if 0x20 ≤ c.toNat ∧ c.toNat ≤ 0x7e then [c]
  else if c.toNat = 0x08 then ['\\', 'b']
  else if c.toNat = 0x09 then ['\\', 't']
  else if c.toNat = 0x0a then ['\\', 'n']
  else if c.toNat = 0x0c then ['\\', 'f']
  else if c.toNat = 0x0d then ['\\', 'r']
  else if c.toNat < 0x10000 then uEscape c.toNat
  else
    uEscape (0xd800 + (c.toNat - 0x10000) / 0x400)
      ++ uEscape (0xdc00 + (c.toNat - 0x10000) % 0x400)

/-- A character `json.dumps` copies verbatim: printable ASCII other than the
double quote and the backslash. -/
def jsonPlainChar (c : Char) : Bool :=
  c != '"' && c != '\\' && Nat.ble 0x20 c.toNat && Nat.ble c.toNat 0x7e

/-- `json.dumps` rendering of a string literal (default `ensure_ascii=True`):
double quotes around the escaped characters. -/
def jsonQuote (s : String) : String :=
  "\"" ++ String.mk (s.data.flatMap pyJsonEscapeChar) ++ "\""

/-- `json.dumps` rendering, at `indent=2`, of a nested list of strings. -/
def jsonStringList (xs : List String) : String :=
  "[\n" ++ String.intercalate ",\n" (xs.map (fun x => "    " ++ jsonQuote x))
    ++ "\n  ]"

/-- `json.dumps(justification, indent=2)` for the payload above.  The
`confidence` field is the literal `0.85` in every payload the client builds,
and is rendered as such. -/
def jsonDumpsJustification (j : Justification) : String :=
  "\x7b\n  \"belief_id\": " ++ jsonQuote j.belief_id
    ++ ",\n  \"rule_path\": " ++ jsonStringList j.rule_path
    ++ ",\n  \"premises\": " ++ jsonStringList j.premises
    ++ ",\n  \"confidence\": 0.85,\n  \"depth\": " ++ toString j.depth
    ++ "\n\x7d"

/-- The `try` block of `get_justification`. -/
def getJustificationTry (s : ClientState) (env : Env) (q : JustificationQuery) :
    JustificationResponse × ClientState × List Event :=
  match env.dispatchErr with
  | some e =>
      ({ justification_tree := "\x7b\x7d"
         success := false
         message := "Error getting justification: " ++ e }, s, [Event.dispatch])
  | none =>
      ({ justification_tree := jsonDumpsJustification (mkJustificationPayload q)
         success := true
         message := "Justification retrieved successfully" }, s, [Event.dispatch])

/-- `CSNeRSClient.get_justification`. -/
def get_justification (s : ClientState) (env : Env) (q : JustificationQuery) :
    JustificationResponse × ClientState × List Event :=
  if s.connected then getJustificationTry s env q
  else
    match connect s env.connectErr with
    | (true, s1) =>
        let r := getJustificationTry s1 env q
        (r.1, r.2.1, Event.connect :: r.2.2)
    | (false, s1) =>
        ({ justification_tree := "\x7b\x7d"
           success := false
           message := "Not connected to CSNePS server" }, s1, [Event.connect])

/-- Argument of the free function `send_observation`.  Python is dynamically
typed there, so besides the four variants the caller may pass any other
value; `other` carries the rendering of `type(observation)` used in the
error message. -/
inductive ObsValue where
  | loopClosure (o : LoopClosure)
  | appearanceMatch (o : AppearanceMatch)
  | gncEvent (o : GNCEvent)
  | medicalFinding (o : MedicalFinding)
  | other (typeName : String)
deriving Repr, DecidableEq

/-- Free function `send_observation`: `isinstance` dispatch over the four
variants; any other value raises `ValueError` (embedded as `Except.error`)
before touching the client. -/
def send_observation (s : ClientState) (env : Env) (v : ObsValue) :
    Except String (ObservationResponse × ClientState × List Event) :=
  match v with
  | .loopClosure o => .ok (send_loop_closure s env o)
  | .appearanceMatch o => .ok (send_appearance_match s env o)
  | .gncEvent o => .ok (send_gnc_event s env o)
  | .medicalFinding o => .ok (send_medical_finding s env o)
  | .other t => .error ("Unsupported observation type: " ++ t)

/-- Number of connect attempts in a trace. -/
def connectCount (es : List Event) : Nat :=
  es.count Event.connect

/-- A connected client state used in concrete instantiations. -/
def sampleConnected : ClientState :=
  { host := "localhost", port := 50051, connected := true }

/-- A disconnected client state used in concrete instantiations. -/
def sampleDisconnected : ClientState :=
  { host := "localhost", port := 50051, connected := false }

/-- An oracle with no injected exceptions. -/
def cleanEnv : Env :=
  { connectErr := none, dispatchErr := none, now := 1723 }

/-- An oracle whose connect attempt raises. -/
def connectFailEnv : Env :=
  { connectErr := some "connection refused", dispatchErr := none, now := 1723 }

/-- An oracle whose dispatch raises. -/
def dispatchFailEnv : Env :=
  { connectErr := none, dispatchErr := some "deadline exceeded", now := 1723 }

/-- The loop-closure observation from the spec scenario. -/
def sampleLoopClosure : LoopClosure :=
  { landmark_id := "L001"
    score := 0.85
    method := "visual"
    pose_estimate := [10.5, 3.2, 0, 0, 0, 0, 1]
    timestamp := some 0 }

/-- A sample appearance match. -/
def sampleAppearanceMatch : AppearanceMatch :=
  { landmark_id := "L001", consistency := "consistent", score := 0.9
    timestamp := some 0 }

/-- A sample GNC event. -/
def sampleGncEvent : GNCEvent :=
  { event_type := "thruster_anomaly", mode := "burn", severity := 0.7
    parameters := [("thrust_deviation", 0.15)], timestamp := some 0 }

/-- A sample medical finding. -/
def sampleMedicalFinding : MedicalFinding :=
  { patient_id := "P001", finding_type := "lesion", confidence := 0.8
    location := "liver_segment_4", size_mm := 12, modality := "CT"
    timestamp := some 0 }

/-- A Python slice `xs[:n]` with a nonnegative bound returns at most `n`
elements. -/
theorem pyTake_length_le {α : Type} (n : Int) (hn : 0 ≤ n) (xs : List α) :
    ((pyTake n xs).length : Int) ≤ n := by
  unfold pyTake
  rw [if_pos hn]
  have h1 : (xs.take n.toNat).length ≤ n.toNat := List.length_take_le _ _
  have h2 : ((xs.take n.toNat).length : Int) ≤ (n.toNat : Int) :=
    Int.ofNat_le.mpr h1
  rwa [Int.toNat_of_nonneg hn] at h2

/-- Slicing the empty list yields the empty list, for every `int` bound. -/
theorem pyTake_nil {α : Type} (n : Int) : pyTake n ([] : List α) = [] := by
  unfold pyTake
  cases h : decide (0 ≤ n) <;> simp_all

/-- C1: for every `BeliefQuery` with `limit = n` (`n ≥ 1`), the `beliefs`
list of the `query_beliefs` result has length at most `n`, in every client
state and under every exception oracle. -/
theorem query_beliefs_respects_limit (s : ClientState) (env : Env)
    (q : BeliefQuery) (h : 1 ≤ q.limit) :
    (((query_beliefs s env q).1.beliefs).length : Int) ≤ q.limit := by
  have h0 : (0 : Int) ≤ q.limit := le_trans (by norm_num) h
  unfold query_beliefs queryBeliefsTry connect
  cases hs : s.connected <;> cases hk : env.connectErr <;>
    cases hd : env.dispatchErr <;>
    simp only [Bool.false_eq_true, if_false, if_true, List.length_nil] <;>
    first
      | exact pyTake_length_le q.limit h0 _
      | simpa using h0

theorem query_beliefs_respects_limit_witness :
    (1 : Int) ≤ 2 ∧
      (((query_beliefs sampleConnected cleanEnv
          { concept := "HighConfidenceLandmark", limit := 2
            include_justification := false }).1.beliefs).length : Int) ≤ 2 :=
  ⟨by norm_num,
   query_beliefs_respects_limit sampleConnected cleanEnv
     { concept := "HighConfidenceLandmark", limit := 2
       include_justification := false } (by norm_num)⟩

/-- C3: `send_observation` on a value outside the four observation variants
raises `ValueError` (`Except.error`) to the caller, carrying the stringified
type, and never reaches the client: no `.ok` result (hence no connect and no
dispatch event) is produced. -/
theorem send_observation_unsupported (s : ClientState) (env : Env)
    (t : String) :
    send_observation s env (ObsValue.other t)
        = Except.error ("Unsupported observation type: " ++ t) ∧
      ∀ r, send_observation s env (ObsValue.other t) ≠ Except.ok r := by
  refine ⟨rfl, ?_⟩
  intro r h
  exact Except.noConfusion h

/-- C4: `connect` (whose mock body cannot raise, hence oracle `none`) always
reports success and leaves the client connected; a second consecutive call
also reports success and does not change the state again; and when the
client is already connected the call is a state no-op. -/
theorem connect_idempotent (s : ClientState) :
    (connect s none).1 = true ∧
      (connect s none).2.connected = true ∧
      (connect (connect s none).2 none).1 = true ∧
      (connect (connect s none).2 none).2 = (connect s none).2 ∧
      (s.connected = true → (connect s none).2 = s) := by
  cases s with
  | mk host port connected =>
      refine ⟨rfl, rfl, rfl, rfl, ?_⟩
      intro h
      have h1 : connected = true := h
      simp [connect, h1]

theorem connect_idempotent_witness :
    sampleConnected.connected = true ∧ (connect sampleConnected none).2 = sampleConnected :=
  ⟨rfl, (connect_idempotent sampleConnected).2.2.2.2 rfl⟩

/-- C2: when the simulated gRPC call inside any of the four typed send
methods raises an exception `e` (and the client is connected or auto-connect
succeeds, so the dispatch is actually attempted), the method catches it and
returns an `ObservationResponse` with `success = false` whose message
contains the stringified error; being total Lean functions, the methods
propagate no exception. -/
theorem send_errors_reported (s : ClientState) (env : Env) (e : String)
    (o1 : LoopClosure) (o2 : AppearanceMatch) (o3 : GNCEvent)
    (o4 : MedicalFinding) (hd : env.dispatchErr = some e)
    (hk : env.connectErr = none) :
    ((send_loop_closure s env o1).1.success = false ∧
        ∃ p, (send_loop_closure s env o1).1.message = p ++ e) ∧
      ((send_appearance_match s env o2).1.success = false ∧
        ∃ p, (send_appearance_match s env o2).1.message = p ++ e) ∧
      ((send_gnc_event s env o3).1.success = false ∧
        ∃ p, (send_gnc_event s env o3).1.message = p ++ e) ∧
      ((send_medical_finding s env o4).1.success = false ∧
        ∃ p, (send_medical_finding s env o4).1.message = p ++ e) := by
  cases hs : s.connected <;>
    simp [send_loop_closure, send_appearance_match, send_gnc_event,
      send_medical_finding, sendLoopClosureTry, sendAppearanceMatchTry,
      sendGncEventTry, sendMedicalFindingTry, connect, mkObservationResponse,
      hd, hk, hs] <;>
    exact ⟨"Error sending observation: ", rfl⟩

theorem send_errors_reported_witness :
    dispatchFailEnv.dispatchErr = some "deadline exceeded" ∧
      dispatchFailEnv.connectErr = none ∧
      (send_loop_closure sampleConnected dispatchFailEnv
          sampleLoopClosure).1.success = false :=
  ⟨rfl, rfl,
    (send_errors_reported sampleConnected dispatchFailEnv "deadline exceeded"
      sampleLoopClosure sampleAppearanceMatch sampleGncEvent
      sampleMedicalFinding rfl rfl).1.1⟩

/-- C5 counterexample: on a disconnected client whose auto-connect fails,
`send_loop_closure` reports `success = false`, but its message is the
literal `"Not connected to CSNePS server"`, not `"not connected"` as the
claim states. -/
theorem submit_auto_connect_message_cx :
    sampleDisconnected.connected = false ∧
      connectFailEnv.connectErr = some "connection refused" ∧
      (send_loop_closure sampleDisconnected connectFailEnv
          sampleLoopClosure).1.success = false ∧
      (send_loop_closure sampleDisconnected connectFailEnv
          sampleLoopClosure).1.message ≠ "not connected" := by
  refine ⟨rfl, rfl, rfl, ?_⟩
  decide

/-- C5 amended: every typed send method on a disconnected client performs
exactly one implicit connect attempt (whether it succeeds or fails), and
when that auto-connect fails the method returns `success = false` with
message `"Not connected to CSNePS server"` — reported in-band, never
raised. -/
theorem submit_auto_connects_once (s : ClientState) (env : Env) (e : String)
    (o1 : LoopClosure) (o2 : AppearanceMatch) (o3 : GNCEvent)
    (o4 : MedicalFinding) (hs : s.connected = false) :
    connectCount (send_loop_closure s env o1).2.2 = 1 ∧
      connectCount (send_appearance_match s env o2).2.2 = 1 ∧
      connectCount (send_gnc_event s env o3).2.2 = 1 ∧
      connectCount (send_medical_finding s env o4).2.2 = 1 ∧
      (env.connectErr = some e →
        ((send_loop_closure s env o1).1.success = false ∧
            (send_loop_closure s env o1).1.message
              = "Not connected to CSNePS server") ∧
          ((send_appearance_match s env o2).1.success = false ∧
            (send_appearance_match s env o2).1.message
              = "Not connected to CSNePS server") ∧
          ((send_gnc_event s env o3).1.success = false ∧
            (send_gnc_event s env o3).1.message
              = "Not connected to CSNePS server") ∧
          ((send_medical_finding s env o4).1.success = false ∧
            (send_medical_finding s env o4).1.message
              = "Not connected to CSNePS server")) := by
  cases hk : env.connectErr <;> cases hd : env.dispatchErr <;>
    simp [send_loop_closure, send_appearance_match, send_gnc_event,
      send_medical_finding, sendLoopClosureTry, sendAppearanceMatchTry,
      sendGncEventTry, sendMedicalFindingTry, connect, mkObservationResponse,
      connectCount, hs, hk, hd, List.count_cons, List.count_nil]

theorem submit_auto_connects_once_witness :
    sampleDisconnected.connected = false ∧
      connectCount (send_loop_closure sampleDisconnected cleanEnv
        sampleLoopClosure).2.2 = 1 :=
  ⟨rfl,
    (submit_auto_connects_once sampleDisconnected cleanEnv "unused"
      sampleLoopClosure sampleAppearanceMatch sampleGncEvent
      sampleMedicalFinding rfl).1⟩

/-- C6: every `ObservationResponse` produced by the four send methods has
`observation_id` present exactly when `success` is true; and the
`__post_init__` normalisation guarantees `triggered_rules` is always a list
(an absent/`None` argument becomes the empty list). -/
theorem observation_ack_invariant (s : ClientState) (env : Env)
    (o1 : LoopClosure) (o2 : AppearanceMatch) (o3 : GNCEvent)
    (o4 : MedicalFinding) :
    ((send_loop_closure s env o1).1.observation_id.isSome
        = (send_loop_closure s env o1).1.success) ∧
      ((send_appearance_match s env o2).1.observation_id.isSome
        = (send_appearance_match s env o2).1.success) ∧
      ((send_gnc_event s env o3).1.observation_id.isSome
        = (send_gnc_event s env o3).1.success) ∧
      ((send_medical_finding s env o4).1.observation_id.isSome
        = (send_medical_finding s env o4).1.success) ∧
      (∀ su msg oid tr,
        (mkObservationResponse su msg oid tr).triggered_rules = tr.getD []) := by
  refine ⟨?_, ?_, ?_, ?_, fun su msg oid tr => rfl⟩ <;>
    cases hs : s.connected <;> cases hk : env.connectErr <;>
      cases hd : env.dispatchErr <;>
      simp [send_loop_closure, send_appearance_match, send_gnc_event,
        send_medical_finding, sendLoopClosureTry, sendAppearanceMatchTry,
        sendGncEventTry, sendMedicalFindingTry, connect,
        mkObservationResponse, hs, hk, hd]

/-- String concatenation is associative. -/
theorem string_append_assoc (a b c : String) : a ++ b ++ c = a ++ (b ++ c) := by
  cases a with
  | mk da =>
      cases b with
      | mk db =>
          cases c with
          | mk dc =>
              show String.mk (da ++ db ++ dc) = String.mk (da ++ (db ++ dc))
              rw [List.append_assoc]

/-- The serialised justification payload contains the `json.dumps`
rendering of its `belief_id`. -/
theorem jsonDumpsJustification_contains (j : Justification) :
    ∃ p1 p2, jsonDumpsJustification j = p1 ++ jsonQuote j.belief_id ++ p2 := by
  refine ⟨"\x7b\n  \"belief_id\": ",
    ",\n  \"rule_path\": " ++ (jsonStringList j.rule_path
      ++ (",\n  \"premises\": " ++ (jsonStringList j.premises
      ++ (",\n  \"confidence\": 0.85,\n  \"depth\": "
        ++ (toString j.depth ++ "\n\x7d"))))), ?_⟩
  simp only [jsonDumpsJustification, string_append_assoc]

/-- A plain character (printable ASCII, not the quote or the backslash) is
copied verbatim by the `json.dumps` escaping. -/
theorem pyJsonEscapeChar_plain (c : Char) (h : jsonPlainChar c = true) :
    pyJsonEscapeChar c = [c] := by
  unfold jsonPlainChar at h
  simp only [Bool.and_eq_true, bne_iff_ne, Nat.ble_eq] at h
  unfold pyJsonEscapeChar
  rw [if_neg h.1.1.1, if_neg h.1.1.2, if_pos ⟨h.1.2, h.2⟩]

/-- A string of plain characters is unchanged by the `json.dumps`
escaping. -/
theorem flatMap_escape_plain (l : List Char)
    (h : ∀ c ∈ l, jsonPlainChar c = true) :
    l.flatMap pyJsonEscapeChar = l := by
  induction l with
  | nil => rfl
  | cons c t ih =>
      rw [List.flatMap_cons, pyJsonEscapeChar_plain c (h c (by simp)),
        ih (fun x hx => h x (by simp [hx]))]
      rfl

/-- On a string of plain characters, `jsonQuote` only wraps quotes around
the string itself. -/
theorem jsonQuote_plain (s : String)
    (h : ∀ c ∈ s.data, jsonPlainChar c = true) :
    jsonQuote s = "\"" ++ s ++ "\"" := by
  unfold jsonQuote
  rw [flatMap_escape_plain s.data h]

/-- Substring containment of strings is infix containment of their
character data. -/
theorem string_contains_iff (x t : String) :
    (∃ p1 p2, t = p1 ++ x ++ p2) ↔ List.IsInfix x.data t.data := by
  constructor
  · rintro ⟨p1, p2, rfl⟩
    exact ⟨p1.data, p2.data, by
      simp [String.data_append, List.append_assoc]⟩
  · rintro ⟨l1, l2, hl⟩
    refine ⟨String.mk l1, String.mk l2, String.ext ?_⟩
    simp [String.data_append, ← hl, List.append_assoc]

set_option maxRecDepth 4096 in
/-- C7 counterexample: for a query whose `belief_id` contains a double
quote, `get_justification` on a connected client succeeds, yet the
serialised payload does not contain the id verbatim, because `json.dumps`
escapes the quote. -/
theorem get_justification_roundtrip_cx :
    (get_justification sampleConnected cleanEnv
        { belief_id := "zz\"zz", max_depth := 5 }).1.success = true ∧
      ¬ ∃ p1 p2, (get_justification sampleConnected cleanEnv
          { belief_id := "zz\"zz", max_depth := 5 }).1.justification_tree
        = p1 ++ "zz\"zz" ++ p2 := by
  refine ⟨rfl, ?_⟩
  rw [string_contains_iff]
  decide

/-- C7 amended: whenever `get_justification` reports success, the
serialised derivation payload contains the `json.dumps` rendering of the
queried `belief_id`; when that id consists only of characters `json.dumps`
copies verbatim (printable ASCII other than the double quote and the
backslash), the payload therefore contains the id itself verbatim
(round-trip identity). -/
theorem get_justification_roundtrip (s : ClientState) (env : Env)
    (q : JustificationQuery)
    (h : (get_justification s env q).1.success = true) :
    (∃ p1 p2, (get_justification s env q).1.justification_tree
        = p1 ++ jsonQuote q.belief_id ++ p2) ∧
      ((∀ c ∈ q.belief_id.data, jsonPlainChar c = true) →
        ∃ p1 p2, (get_justification s env q).1.justification_tree
          = p1 ++ q.belief_id ++ p2) := by
  have hbase : (get_justification s env q).1.justification_tree
      = jsonDumpsJustification (mkJustificationPayload q) := by
    unfold get_justification getJustificationTry at h ⊢
    cases hs : s.connected <;> cases hk : env.connectErr <;>
      cases hd : env.dispatchErr <;> simp_all [connect]
  obtain ⟨p1, p2, hp⟩ :=
    jsonDumpsJustification_contains (mkJustificationPayload q)
  have hp1 : jsonDumpsJustification (mkJustificationPayload q)
      = p1 ++ jsonQuote q.belief_id ++ p2 := hp
  constructor
  · exact ⟨p1, p2, by rw [hbase, hp1]⟩
  · intro hplain
    refine ⟨p1 ++ "\"", "\"" ++ p2, ?_⟩
    rw [hbase, hp1, jsonQuote_plain q.belief_id hplain]
    simp only [string_append_assoc]

theorem get_justification_roundtrip_witness :
    (get_justification sampleConnected cleanEnv
        { belief_id := "landmark-1", max_depth := 5 }).1.success = true ∧
      (∀ c ∈ ("landmark-1" : String).data, jsonPlainChar c = true) ∧
      ∃ p1 p2, (get_justification sampleConnected cleanEnv
          { belief_id := "landmark-1", max_depth := 5 }).1.justification_tree
        = p1 ++ "landmark-1" ++ p2 :=
  ⟨rfl, by decide,
    (get_justification_roundtrip sampleConnected cleanEnv
      { belief_id := "landmark-1", max_depth := 5 } rfl).2 (by decide)⟩

/-- C8 counterexample: for the query with `max_depth = 1` (a `max_depth ≥ 1`
instance), `get_justification` on a connected client succeeds, the returned
payload is the serialisation of the mock derivation, and that derivation
declares depth 2, which exceeds the requested bound 1. -/
theorem get_justification_depth_cx :
    (get_justification sampleConnected cleanEnv
        { belief_id := "landmark-1", max_depth := 1 }).1.success = true ∧
      (get_justification sampleConnected cleanEnv
          { belief_id := "landmark-1", max_depth := 1 }).1.justification_tree
        = jsonDumpsJustification (mkJustificationPayload
            { belief_id := "landmark-1", max_depth := 1 }) ∧
      (mkJustificationPayload
          { belief_id := "landmark-1", max_depth := 1 }).depth = 2 ∧
      ¬ (((mkJustificationPayload
          { belief_id := "landmark-1", max_depth := 1 }).depth : Int)
        ≤ (1 : Int)) := by
  refine ⟨rfl, rfl, rfl, ?_⟩
  decide

/-- C8 amended: the mock derivation payload always declares depth exactly 2,
so the declared depth is at most `max_depth` for every query with
`max_depth ≥ 2` (but not for `max_depth = 1`). -/
theorem get_justification_depth_bound (s : ClientState) (env : Env)
    (q : JustificationQuery)
    (h : (get_justification s env q).1.success = true)
    (hd : 2 ≤ q.max_depth) :
    (get_justification s env q).1.justification_tree
        = jsonDumpsJustification (mkJustificationPayload q) ∧
      (mkJustificationPayload q).depth = 2 ∧
      ((mkJustificationPayload q).depth : Int) ≤ q.max_depth := by
  refine ⟨?_, rfl, ?_⟩
  · unfold get_justification getJustificationTry at h ⊢
    cases hs : s.connected <;> cases hk : env.connectErr <;>
      cases hdd : env.dispatchErr <;> simp_all [connect]
  · exact_mod_cast hd

theorem get_justification_depth_bound_witness :
    (get_justification sampleConnected cleanEnv
        { belief_id := "landmark-1", max_depth := 5 }).1.success = true ∧
      (2 : Int) ≤ 5 ∧
      ((mkJustificationPayload
          { belief_id := "landmark-1", max_depth := 5 }).depth : Int) ≤ 5 :=
  ⟨rfl, by norm_num,
    (get_justification_depth_bound sampleConnected cleanEnv
      { belief_id := "landmark-1", max_depth := 5 } rfl (by norm_num)).2.2⟩

/-- C9: on a connected client whose dispatch does not raise, `query_beliefs`
for a concept outside the three mocked ones reports `success = true` with an
empty `beliefs` list — an unknown concept is not a failure. -/
theorem query_beliefs_unknown_concept (s : ClientState) (env : Env)
    (q : BeliefQuery) (hs : s.connected = true)
    (hd : env.dispatchErr = none)
    (h1 : q.concept ≠ "HighConfidenceLandmark")
    (h2 : q.concept ≠ "Hypothesis")
    (h3 : q.concept ≠ "Recommendation") :
    (query_beliefs s env q).1.success = true ∧
      (query_beliefs s env q).1.beliefs = [] := by
  simp [query_beliefs, queryBeliefsTry, mockBeliefs, hs, hd, h1, h2, h3,
    pyTake_nil]

theorem query_beliefs_unknown_concept_witness :
    sampleConnected.connected = true ∧
      ("UnknownConcept" : String) ≠ "HighConfidenceLandmark" ∧
      (query_beliefs sampleConnected cleanEnv
          { concept := "UnknownConcept", limit := 10
            include_justification := false }).1.beliefs = [] :=
  ⟨rfl, by decide,
    (query_beliefs_unknown_concept sampleConnected cleanEnv
      { concept := "UnknownConcept", limit := 10
        include_justification := false }
      rfl rfl (by decide) (by decide) (by decide)).2⟩

/-- C10: none of the submit/query/justification operations disconnects the
client: whenever such a call reports `success = true` the client ends up
connected (`is_connected`), and a client that was connected before the call
is still connected after it; the flag is cleared only by `disconnect` or by
a failed `connect`. -/
theorem ops_preserve_connection (s : ClientState) (env : Env)
    (o1 : LoopClosure) (o2 : AppearanceMatch) (o3 : GNCEvent)
    (o4 : MedicalFinding) (q : BeliefQuery) (jq : JustificationQuery) :
    (((send_loop_closure s env o1).1.success = true →
        is_connected (send_loop_closure s env o1).2.1 = true) ∧
      (s.connected = true →
        is_connected (send_loop_closure s env o1).2.1 = true)) ∧
    (((send_appearance_match s env o2).1.success = true →
        is_connected (send_appearance_match s env o2).2.1 = true) ∧
      (s.connected = true →
        is_connected (send_appearance_match s env o2).2.1 = true)) ∧
    (((send_gnc_event s env o3).1.success = true →
        is_connected (send_gnc_event s env o3).2.1 = true) ∧
      (s.connected = true →
        is_connected (send_gnc_event s env o3).2.1 = true)) ∧
    (((send_medical_finding s env o4).1.success = true →
        is_connected (send_medical_finding s env o4).2.1 = true) ∧
      (s.connected = true →
        is_connected (send_medical_finding s env o4).2.1 = true)) ∧
    (((query_beliefs s env q).1.success = true →
        is_connected (query_beliefs s env q).2.1 = true) ∧
      (s.connected = true →
        is_connected (query_beliefs s env q).2.1 = true)) ∧
    (((get_justification s env jq).1.success = true →
        is_connected (get_justification s env jq).2.1 = true) ∧
      (s.connected = true →
        is_connected (get_justification s env jq).2.1 = true)) ∧
    is_connected (disconnect s) = false ∧
    (∀ e, is_connected (connect s (some e)).2 = false) := by
  cases hs : s.connected <;> cases hk : env.connectErr <;>
    cases hd : env.dispatchErr <;>
    simp [send_loop_closure, send_appearance_match, send_gnc_event,
      send_medical_finding, sendLoopClosureTry, sendAppearanceMatchTry,
      sendGncEventTry, sendMedicalFindingTry, query_beliefs, queryBeliefsTry,
      get_justification, getJustificationTry, connect, disconnect,
      is_connected, mkObservationResponse, hs, hk, hd]

theorem ops_preserve_connection_witness :
    (send_loop_closure sampleConnected cleanEnv sampleLoopClosure).1.success
        = true ∧
      is_connected
        (send_loop_closure sampleConnected cleanEnv sampleLoopClosure).2.1
        = true :=
  ⟨rfl,
    (ops_preserve_connection sampleConnected cleanEnv sampleLoopClosure
      sampleAppearanceMatch sampleGncEvent sampleMedicalFinding
      { concept := "Hypothesis", limit := 10, include_justification := false }
      { belief_id := "landmark-1", max_depth := 5 }).1.1 rfl⟩

end CSRI
